import Mathlib

/-!
# Verification of the reservoir-sync-node adaptive time-range partitioning core

Shallow embedding of the Worker state machine (`src/syncer/Worker.ts`) and the
Controller's bootstrap / query-normalization routines (the unnamed Controller
source file).  Dates and timestamps are modelled as natural numbers at the
supported time resolution; record pages, HTTP responses and the density oracle
are modelled explicitly.  Utility functions that live in `src/utils` (absent
from this snapshot) are modelled from the spec's stated contracts and marked as
such in their doc comments.
-/

namespace SyncNode

/-- A record of the external feed: the only field the scheduler reads is the
`updatedAt` timestamp (modelled as a numeric timestamp). -/
structure SourceRecord where
  updatedAt : Nat
deriving Repr, DecidableEq

/-- A unit of ingestion work: a time range plus optional filter key and dataset
mapping.  Worker-side splits are built without a mapping (the Worker's
`_split` passes only `startDate`, `endDate`, `id`, `contract`), so `mapping`
is optional. -/
structure Block where
  id : String
  startDate : Nat
  endDate : Nat
  contract : String
  mapping : Option String := none
deriving Repr, DecidableEq

/-- Worker runtime state: the `busy` flag, the `data.block` record written at
`process` entry, and the `continuation` pagination cursor (a string, empty
meaning "no cursor", as in the source where it is initialised to `''`). -/
structure WorkerState where
  busy : Bool
  continuation : String
  dataBlock : Option Block
deriving Repr, DecidableEq

/-- Events emitted on the worker event bus (`worker.split` / `worker.release`),
each carrying a `Block`. -/
inductive WorkerEvent where
  | split (block : Block)
  | release (block : Block)
deriving Repr, DecidableEq

/-- An HTTP response as the Worker observes it: either classified as an
application failure by `isSuccessResponse`, or an application success carrying
the record array under the dataset's root field plus an optional continuation
cursor.  Modelled from the spec: `isSuccessResponse` itself lives in
`src/utils` (absent here); its classification is embedded as the two
constructors. -/
inductive Response where
  | failure
  | success (records : List SourceRecord) (continuation : Option String)
deriving Repr, DecidableEq

/-- JavaScript truthiness of the optional `continuation` field of a success
payload: `undefined` and the empty string are falsy. -/
def contTruthy : Option String → Bool
  | none => false
  | some c => c ≠ ""

/-- Modelled from the spec: `getMiddleDate(start, end)` lives in `src/utils`
(absent from this snapshot).  Contract (spec §6): "returns a timestamp
strictly between `start` and `end` when one exists at the supported time
resolution, else returns one of the boundaries".  At integer resolution the
arithmetic midpoint satisfies this contract. -/
def getMiddleDate (startDate endDate : Nat) : Nat :=
  (startDate + endDate) / 2

/-- The midpoint satisfies the spec contract: strictly interior whenever an
interior point exists (distance at least 2), a boundary otherwise. -/
theorem getMiddleDate_contract (s e : Nat) :
    (2 ≤ Nat.dist s e → getMiddleDate s e ≠ s ∧ getMiddleDate s e ≠ e) ∧
    (Nat.dist s e ≤ 1 → getMiddleDate s e = s ∨ getMiddleDate s e = e) := by
  simp only [getMiddleDate, Nat.dist]
  omega

/-- Outcome of one evaluation of the graining loop body
(`Worker.process`, the `while (true)` graining loop): exit to Processing when
density is acceptable; force a release when the midpoint collapses onto a
boundary; otherwise emit a split for `[middleDate, endDate]` and shrink the
owned range to `[startDate, middleDate]`. -/
inductive GrainAction where
  | exitGrain
  | forceRelease
  | splitGrain (emitted : Nat × Nat) (shrunk : Nat × Nat)
deriving Repr, DecidableEq

/-- One iteration of the graining loop body after a successful descending
probe (`Worker.ts` lines 131–151): the density check, the boundary-collapse
check, and the split/shrink step. -/
def grainBody (isHighDensity : Bool) (startDate endDate : Nat) : GrainAction :=
  if isHighDensity then
    let middleDate := getMiddleDate startDate endDate
    if middleDate = startDate ∨ middleDate = endDate then
      .forceRelease
    else
      .splitGrain (middleDate, endDate) (startDate, middleDate)
  else
    .exitGrain

/-- A non-collapsed midpoint strictly shrinks the distance between the range
boundaries: the graining loop's termination measure. -/
theorem getMiddleDate_dist_lt (s e : Nat)
    (h1 : getMiddleDate s e ≠ s) (h2 : getMiddleDate s e ≠ e) :
    Nat.dist s (getMiddleDate s e) < Nat.dist s e := by
  simp only [getMiddleDate, Nat.dist] at *
  omega

/-- How the graining loop terminated: exit to the Processing phase on the
final (possibly shrunk) range, or a forced release on boundary collapse
(carrying the locals at the moment of release). -/
inductive GrainOutcome where
  | toProcessing (startDate endDate : Nat)
  | released (startDate endDate : Nat)
deriving Repr, DecidableEq

/-- Result of running the graining loop to completion: the outcome, the split
ranges emitted along the way (most recent first), and the number of loop
iterations executed. -/
structure GrainResult where
  outcome : GrainOutcome
  splits : List (Nat × Nat)
  count : Nat
deriving Repr, DecidableEq

/-- The graining loop of `Worker.process` (lines 109–152), success path: the
density oracle `dense` abstracts the combined ascending/descending probe
sample's density verdict for the current range (application-failure retries
of the descending probe repeat an iteration without touching the range, so
they are not part of the halving sequence modelled here). -/
def grainLoop (dense : Nat → Nat → Bool) (s e : Nat) : GrainResult :=
  if dense s e then
    if h : getMiddleDate s e = s ∨ getMiddleDate s e = e then
      { outcome := .released s e, splits := [], count := 1 }
    else
      { outcome := (grainLoop dense s (getMiddleDate s e)).outcome,
        splits := (getMiddleDate s e, e) :: (grainLoop dense s (getMiddleDate s e)).splits,
        count := (grainLoop dense s (getMiddleDate s e)).count + 1 }
  else
    { outcome := .toProcessing s e, splits := [], count := 1 }
termination_by Nat.dist s e
decreasing_by
  push_neg at h
  exact getMiddleDate_dist_lt s e h.1 h.2

/-- `Worker._release` (lines 270–278): reset the `continuation` cursor to the
empty string, reset `busy` to `false`, and emit the release event carrying
the given block.  `data.block` is not touched. -/
def releaseWorker (st : WorkerState) (block : Block) : WorkerState × WorkerEvent :=
  ({ st with busy := false, continuation := "" }, .release block)

/-- Phase reached by the entry of `Worker.process` after the initial
ascending probe. -/
inductive EntryPhase where
  | retryBlock (delayMs : Nat)
  | releasedNow
  | graining
deriving Repr, DecidableEq

/-- Result of the entry of `Worker.process`: the phase reached, the worker
state, the events emitted and the records inserted so far. -/
structure EntryResult where
  phase : EntryPhase
  state : WorkerState
  events : List WorkerEvent
  inserted : List SourceRecord
deriving Repr, DecidableEq

/-- Entry of `Worker.process` (lines 83–104): set `busy`, record
`data.block`, and classify the initial ascending probe: on application
failure wait 5000 ms and retry the whole block; on an empty record page
release immediately; otherwise enter the graining loop.  Nothing is inserted
before the graining loop. -/
def processEntry (st : WorkerState) (block : Block) (ascRes : Response) :
    EntryResult :=
  let st1 : WorkerState := { st with busy := true, dataBlock := some block }
  match ascRes with
  | .failure =>
    { phase := .retryBlock 5000, state := st1, events := [], inserted := [] }
  | .success records _ =>
    if records.isEmpty then
      { phase := .releasedNow,
        state := (releaseWorker st1 block).1,
        events := [(releaseWorker st1 block).2],
        inserted := [] }
    else
      { phase := .graining, state := st1, events := [], inserted := [] }

/-- Action taken by one iteration of the Processing loop. -/
inductive ProcAction where
  | retry (delayMs : Nat)
  | stopEmpty
  | stopNoCursor (inserted : List SourceRecord)
  | advance (inserted : List SourceRecord)
deriving Repr, DecidableEq

/-- One iteration of the Processing loop (`Worker.process` lines 157–183),
acting on the continuation cursor: an application failure waits 5000 ms and
leaves the cursor untouched; an empty page stops the loop; a page without a
truthy continuation inserts its records and stops; otherwise the records are
inserted and the cursor advances to the returned continuation. -/
def processingStep (cursor : String) (res : Response) : String × ProcAction :=
  match res with
  | .failure => (cursor, .retry 5000)
  | .success records cont =>
    if records.isEmpty then (cursor, .stopEmpty)
    else
      match cont with
      | none => (cursor, .stopNoCursor records)
      | some c =>
        if c = "" then (cursor, .stopNoCursor records)
        else (c, .advance records)

/-- The cursor after a sequence of Processing-loop iterations. -/
def cursorAfter (cursor : String) (rs : List Response) : String :=
  rs.foldl (fun c r => (processingStep c r).1) cursor

/-- JS object spread `...(cursor && { continuation: cursor })`: include the
continuation parameter exactly when the cursor string is truthy
(non-empty). -/
def withContinuation (cursor : String) (rest : List (String × String)) :
    List (String × String) :=
  (if cursor = "" then [] else [("continuation", cursor)]) ++ rest

/-- Modelled from the spec: `parseTimestamp` lives in `src/utils` (absent
from this snapshot); its contract is "converts a date representation to the
request's timestamp parameter form".  Dates are already modelled as numeric
timestamps, so it is the identity. -/
def parseTimestamp (t : Nat) : Nat := t

/-- The parameter object of the Processing loop's ascending page request
(`Worker.process` lines 158–165). -/
def processingRequest (cursor : String) (startDate endDate : Nat) :
    List (String × String) :=
  withContinuation cursor
    [("sortDirection", "asc"),
     ("startTimestamp", toString (parseTimestamp startDate)),
     ("endTimestamp", toString (parseTimestamp endDate))]

/-- Far-future sentinel of the tail's ascending request: the timestamp of
`'9999-12-31T23:59:59Z'`. -/
def farFutureSentinel : Nat := 253402300799

/-- Literal numeric sentinel of the tail's descending probe (`Worker.upkeep`
line 228). -/
def descSentinel : Nat := 253402214400

/-- Result of one iteration of the tail loop body: the worker state after the
iteration, the next value of the local `startDate`, the splits emitted, the
records upserted, and the requests issued. -/
structure TailIterResult where
  state : WorkerState
  startDate : Nat
  splits : List Block
  upserted : List SourceRecord
  ascRequest : List (String × String)
  descRequest : Option (List (String × String))
deriving Repr, DecidableEq

/-- One iteration of the tail loop body (`Worker.upkeep` lines 201–254),
given the two responses the feed returns and the density oracle
`isHighDensityBlock` (which lives in `src/utils`, absent from this snapshot,
hence a parameter).  `nowDate` is `date.toISOString()` fixed before the loop
starts; `freshId` models `v4()`.  Every skip path leaves the state and the
local `startDate` unchanged. -/
def tailIteration (isHighDensityBlock : List SourceRecord → Nat → Bool)
    (st : WorkerState) (nowDate startDate : Nat)
    (ascRes descRes : Response) (freshId : String) : TailIterResult :=
  let ascRequest := withContinuation st.continuation
    [("sortDirection", "asc"),
     ("startTimestamp", toString (parseTimestamp startDate)),
     ("endTimestamp", toString (parseTimestamp farFutureSentinel))]
  let descRequest := withContinuation st.continuation
    [("sortDirection", "desc"),
     ("startTimestamp", toString (parseTimestamp nowDate)),
     ("endTimestamp", toString descSentinel)]
  let skip : TailIterResult :=
    { state := st, startDate := startDate, splits := [], upserted := [],
      ascRequest := ascRequest, descRequest := none }
  match ascRes with
  | .failure => skip
  | .success records ascCont =>
    match records with
    | [] => skip
    | r :: rs =>
      if contTruthy ascCont then
        match descRes with
        | .failure =>
          { skip with upserted := r :: rs, descRequest := some descRequest }
        | .success descRecords _ =>
          if isHighDensityBlock ((r :: rs) ++ descRecords) 300000 then
            { state := st,
              startDate := (rs.getLastD r).updatedAt,
              splits := [{ id := freshId,
                           startDate := r.updatedAt,
                           endDate := (rs.getLastD r).updatedAt,
                           contract := "" }],
              upserted := r :: rs,
              ascRequest := ascRequest,
              descRequest := some descRequest }
          else
            { skip with upserted := r :: rs, descRequest := some descRequest }
      else
        { skip with upserted := r :: rs }

/-- Failure modes of the Controller's bootstrap. -/
inductive BootFailure where
  | bootstrapFailed
  | indexOutOfBounds
deriving Repr, DecidableEq

/-- The Controller's `_getInitialBlock`: if either probe response is not an
application success, throw (fatal bootstrap failure); otherwise build the
initial Block from the record at position `length - 1` of the ascending page
and the record at position `length - 1` of the descending page.  On an empty
page that index is out of bounds (in the source, `undefined.updatedAt`
throws), modelled as `indexOutOfBounds`. -/
def getInitialBlock (freshId mapping : String) (ascRes descRes : Response) :
    Except BootFailure Block :=
  match ascRes, descRes with
  | .success ascRecords _, .success descRecords _ =>
    match ascRecords.getLast?, descRecords.getLast? with
    | some a, some d =>
      .ok { id := freshId, startDate := a.updatedAt, endDate := d.updatedAt,
            contract := "", mapping := some mapping }
    | _, _ => .error .indexOutOfBounds
  | _, _ => .error .bootstrapFailed

/-- The Controller's `normalizeParameters`: start from the fixed queries,
push the sort-field query chosen by the mapping's record root key, push each
caller parameter as `key=value` (no escaping, no validation), and join with
`&`.  Caller parameters are modelled as an association list in object-key
insertion order. -/
def normalizeParameters (root : String) (params : List (String × String)) :
    String :=
  let queries := ["limit=1000", "includeCriteriaMetadata=true"]
  let queries :=
    queries ++ [if root = "sales" then "orderBy=updated_at" else "sortBy=updatedAt"]
  let queries := queries ++ params.map (fun p => p.1 ++ "=" ++ p.2)
  String.intercalate "&" queries

/-- Caller parameters appended verbatim, each as `&key=value`. -/
def appendVerbatim (q : String) : List (String × String) → String
  | [] => q
  | p :: ps => appendVerbatim (q ++ "&" ++ p.1 ++ "=" ++ p.2) ps

/-- The query string exactly as the spec sentence describes it (refinement
target for the normalization claim): the fixed pair
`limit=1000&includeCriteriaMetadata=true`, then exactly one sort-field
parameter chosen by the record root key (`orderBy=updated_at` for `sales`,
`sortBy=updatedAt` otherwise), then each caller parameter appended verbatim
as `key=value` joined with `&`. -/
def specQueryString (root : String) (params : List (String × String)) : String :=
  appendVerbatim
    ("limit=1000&includeCriteriaMetadata=true&" ++
      (if root = "sales" then "orderBy=updated_at" else "sortBy=updatedAt"))
    params

/-- `Worker.process` through graining to release, state-level view (entry at
lines 83–84, the graining loop, and the release call): entry records
`data.block`; graining shrinks its locals without ever writing them back to
`data.block`; release resets only the cursor and the busy flag.  The
Processing loop's cursor writes are elided — release resets the cursor
regardless of them.  Split and release events carry the loop's locals (the
Worker-side `Block` literals have no mapping field). -/
def grainReleaseRun (dense : Nat → Nat → Bool) (st : WorkerState)
    (block : Block) : WorkerState × List WorkerEvent :=
  let st1 : WorkerState := { st with busy := true, dataBlock := some block }
  let g := grainLoop dense block.startDate block.endDate
  let finalRange : Nat × Nat :=
    match g.outcome with
    | .released s e => (s, e)
    | .toProcessing s e => (s, e)
  let released := releaseWorker st1
    { id := block.id, startDate := finalRange.1, endDate := finalRange.2,
      contract := block.contract }
  (released.1,
    g.splits.map (fun p =>
      .split { id := block.id, startDate := p.1, endDate := p.2,
               contract := block.contract }) ++ [released.2])

/-- C2: Graining splits are range-preserving.  For a Block range with
`startDate ≤ endDate`, density too high and a non-collapsed (strictly
interior) midpoint, the loop body emits exactly the split `[middleDate,
endDate]` and shrinks the owned range to `[startDate, middleDate]`; the two
ranges cover exactly the original closed range, intersect only in the shared
boundary `middleDate`, and each is well-ordered (`startDate ≤ endDate`). -/
theorem grain_split_range_preserving (s e : Nat) (hs : s ≤ e)
    (h1 : getMiddleDate s e ≠ s) (h2 : getMiddleDate s e ≠ e) :
    grainBody true s e = .splitGrain (getMiddleDate s e, e) (s, getMiddleDate s e) ∧
    Set.Icc (getMiddleDate s e) e ∪ Set.Icc s (getMiddleDate s e) = Set.Icc s e ∧
    Set.Icc (getMiddleDate s e) e ∩ Set.Icc s (getMiddleDate s e) =
      {getMiddleDate s e} ∧
    s ≤ getMiddleDate s e ∧ getMiddleDate s e ≤ e := by
  have hsm : s ≤ getMiddleDate s e := by
    simp only [getMiddleDate]; omega
  have hme : getMiddleDate s e ≤ e := by
    simp only [getMiddleDate]; omega
  refine ⟨?_, ?_, ?_, hsm, hme⟩
  · simp only [grainBody, if_true]
    rw [if_neg]
    push_neg
    exact ⟨h1, h2⟩
  · rw [Set.union_comm]
    exact Set.Icc_union_Icc_eq_Icc hsm hme
  · rw [Set.inter_comm, Set.Icc_inter_Icc]
    rw [sup_of_le_right hsm, inf_of_le_left hme, Set.Icc_self]

/-- C2 witness: a concrete dense range `[0, 10]` with interior midpoint 5. -/
theorem grain_split_range_preserving_witness :
    (0 : Nat) ≤ 10 ∧ getMiddleDate 0 10 ≠ 0 ∧ getMiddleDate 0 10 ≠ 10 ∧
    (grainBody true 0 10 =
        .splitGrain (getMiddleDate 0 10, 10) (0, getMiddleDate 0 10) ∧
      Set.Icc (getMiddleDate 0 10) 10 ∪ Set.Icc 0 (getMiddleDate 0 10) =
        Set.Icc 0 10 ∧
      Set.Icc (getMiddleDate 0 10) 10 ∩ Set.Icc 0 (getMiddleDate 0 10) =
        {getMiddleDate 0 10} ∧
      0 ≤ getMiddleDate 0 10 ∧ getMiddleDate 0 10 ≤ 10) :=
  ⟨by decide, by decide, by decide,
    grain_split_range_preserving 0 10 (by decide) (by decide) (by decide)⟩

/-- C3: Graining terminates.  For every finite range and every density oracle,
the graining loop reaches an outcome (exit to Processing, or a forced release
on boundary collapse) in at most `dist s e + 1` iterations: each non-final
iteration strictly shrinks the boundary distance, so the loop never halves
forever. -/
theorem grain_terminates (dense : Nat → Nat → Bool) (s e : Nat) :
    (grainLoop dense s e).count ≤ Nat.dist s e + 1 := by
  induction e using grainLoop.induct dense s with
  | case1 x hd h => rw [grainLoop]; simp [hd, h]
  | case2 x hd h ih =>
      rw [grainLoop]
      simp only [hd, if_true, dif_neg h]
      push_neg at h
      have hlt := getMiddleDate_dist_lt s x h.1 h.2
      omega
  | case3 x hd => rw [grainLoop]; simp [hd]

/-- C1 counterexample: with a correctly ascending-sorted ascending probe page
`[10, 20]` (oldest record 10) and a correctly descending-sorted descending
probe page `[40, 30]` (newest overall record 40), the constructed initial
Block has `startDate = 20` (not the ascending page's oldest record 10) and
`endDate = 30` (not the newest overall record 40): `_getInitialBlock`
indexes position `length - 1` of both pages. -/
theorem initial_block_counterexample :
    getInitialBlock "b0" "m"
        (.success [⟨10⟩, ⟨20⟩] none) (.success [⟨40⟩, ⟨30⟩] none) =
      .ok { id := "b0", startDate := 20, endDate := 30, contract := "",
            mapping := some "m" } ∧
    (20 : Nat) ≠ 10 ∧ (30 : Nat) ≠ 40 := by
  refine ⟨rfl, by decide, by decide⟩

/-- C1 (amended): for every pair of successful bootstrap probe responses with
non-empty record pages, the Block returned by `_getInitialBlock` has
`startDate` equal to the `updatedAt` of the LAST record of the ascending
probe page (the newest record on that page) and `endDate` equal to the
`updatedAt` of the LAST record of the descending probe page (the oldest
record on that page). -/
theorem initial_block_uses_last_records (fid mapping : String)
    (ascRecords descRecords : List SourceRecord) (c1 c2 : Option String)
    (ha : ascRecords ≠ []) (hd : descRecords ≠ []) :
    getInitialBlock fid mapping (.success ascRecords c1) (.success descRecords c2) =
      .ok { id := fid,
            startDate := (ascRecords.getLast ha).updatedAt,
            endDate := (descRecords.getLast hd).updatedAt,
            contract := "", mapping := some mapping } := by
  simp only [getInitialBlock, List.getLast?_eq_getLast ascRecords ha,
    List.getLast?_eq_getLast descRecords hd]

/-- C1 (amended) witness: concrete two-record pages. -/
theorem initial_block_uses_last_records_witness :
    ([(⟨10⟩ : SourceRecord), ⟨20⟩] : List SourceRecord) ≠ [] ∧
    ([(⟨40⟩ : SourceRecord), ⟨30⟩] : List SourceRecord) ≠ [] ∧
    getInitialBlock "b0" "m"
        (.success [⟨10⟩, ⟨20⟩] none) (.success [⟨40⟩, ⟨30⟩] none) =
      .ok { id := "b0",
            startDate := (([(⟨10⟩ : SourceRecord), ⟨20⟩]).getLast (by decide)).updatedAt,
            endDate := (([(⟨40⟩ : SourceRecord), ⟨30⟩]).getLast (by decide)).updatedAt,
            contract := "", mapping := some "m" } :=
  ⟨by decide, by decide,
    initial_block_uses_last_records "b0" "m" [⟨10⟩, ⟨20⟩] [⟨40⟩, ⟨30⟩] none none
      (by decide) (by decide)⟩

/-- C4: Processing-phase application failures never advance the cursor: a
failure step returns the cursor unchanged together with a fixed 5000 ms
retry; the cursor changes only on an application-success response carrying a
truthy continuation token; and a run of consecutive failures leaves the
cursor — hence the next request — unchanged. -/
theorem failure_never_advances_cursor (cursor : String) (res : Response)
    (startDate endDate : Nat) (rs : List Response)
    (hrs : ∀ r ∈ rs, r = Response.failure) :
    processingStep cursor .failure = (cursor, .retry 5000) ∧
    ((processingStep cursor res).1 ≠ cursor →
      ∃ records c, res = .success records (some c) ∧ c ≠ "" ∧
        (processingStep cursor res).1 = c ∧
        (processingStep cursor res).2 = .advance records) ∧
    cursorAfter cursor rs = cursor ∧
    processingRequest (cursorAfter cursor rs) startDate endDate =
      processingRequest cursor startDate endDate := by
  have hseq : cursorAfter cursor rs = cursor := by
    induction rs generalizing cursor with
    | nil => rfl
    | cons r rs ih =>
        have hr : r = Response.failure := hrs r (by simp)
        subst hr
        have : ∀ r' ∈ rs, r' = Response.failure := fun r' h' => hrs r' (by simp [h'])
        simpa [cursorAfter, processingStep] using ih cursor this
  refine ⟨rfl, ?_, hseq, by rw [hseq]⟩
  intro hne
  rcases res with _ | ⟨records, cont⟩
  · exact absurd rfl hne
  · rcases records with _ | ⟨r, rrest⟩
    · simp [processingStep] at hne
    · rcases cont with _ | c
      · simp [processingStep] at hne
      · by_cases hc : c = ""
        · simp [processingStep, hc] at hne
        · exact ⟨r :: rrest, c, rfl, hc, by simp [processingStep, hc],
            by simp [processingStep, hc]⟩

/-- C4 witness: a concrete cursor, a success response carrying a fresh
cursor, and two consecutive failures. -/
theorem failure_never_advances_cursor_witness :
    (∀ r ∈ [Response.failure, Response.failure], r = Response.failure) ∧
    (processingStep "cur" .failure = ("cur", .retry 5000) ∧
      ((processingStep "cur" (.success [⟨7⟩] (some "next"))).1 ≠ "cur" →
        ∃ records c,
          (Response.success [⟨7⟩] (some "next")) = .success records (some c) ∧
            c ≠ "" ∧
            (processingStep "cur" (.success [⟨7⟩] (some "next"))).1 = c ∧
            (processingStep "cur" (.success [⟨7⟩] (some "next"))).2 =
              .advance records) ∧
      cursorAfter "cur" [Response.failure, Response.failure] = "cur" ∧
      processingRequest (cursorAfter "cur" [Response.failure, Response.failure]) 3 9 =
        processingRequest "cur" 3 9) :=
  ⟨by decide,
    failure_never_advances_cursor "cur" (.success [⟨7⟩] (some "next")) 3 9
      [Response.failure, Response.failure] (by decide)⟩

/-- C5: tail burst delegation.  For a tail iteration whose ascending fetch
succeeds with a non-empty page and a truthy continuation cursor and whose
descending probe succeeds: if the density verdict is positive, exactly one
Split is emitted covering the ascending page's first-to-last `updatedAt`
span and the tail's next start position is the last record's `updatedAt`;
if the verdict is negative, no Split is emitted and the start position is
unchanged. -/
theorem tail_burst_delegation (hd : List SourceRecord → Nat → Bool)
    (st : WorkerState) (nowDate startDate : Nat)
    (r0 : SourceRecord) (rest : List SourceRecord) (c : String) (hc : c ≠ "")
    (descRecords : List SourceRecord) (dc : Option String) (fid : String) :
    (hd ((r0 :: rest) ++ descRecords) 300000 = true →
      (tailIteration hd st nowDate startDate (.success (r0 :: rest) (some c))
          (.success descRecords dc) fid).splits =
        [{ id := fid, startDate := r0.updatedAt,
           endDate := (rest.getLastD r0).updatedAt, contract := "" }] ∧
      (tailIteration hd st nowDate startDate (.success (r0 :: rest) (some c))
          (.success descRecords dc) fid).startDate =
        (rest.getLastD r0).updatedAt) ∧
    (hd ((r0 :: rest) ++ descRecords) 300000 = false →
      (tailIteration hd st nowDate startDate (.success (r0 :: rest) (some c))
          (.success descRecords dc) fid).splits = [] ∧
      (tailIteration hd st nowDate startDate (.success (r0 :: rest) (some c))
          (.success descRecords dc) fid).startDate = startDate) := by
  have hct : contTruthy (some c) = true := by simp [contTruthy, hc]
  constructor <;> intro hdens <;>
    simp only [List.cons_append] at hdens <;>
    simp [tailIteration, hct, hdens]

/-- C5 witness: a concrete burst iteration (dense verdict) next to a concrete
quiet iteration (sparse verdict) of the same shape. -/
theorem tail_burst_delegation_witness :
    ("c1" : String) ≠ "" ∧
    ((fun (_ : List SourceRecord) (_ : Nat) => true)
        (((⟨5⟩ : SourceRecord) :: [⟨9⟩]) ++ [⟨11⟩]) 300000 = true →
      (tailIteration (fun _ _ => true) ⟨false, "", none⟩ 100 50
          (.success [⟨5⟩, ⟨9⟩] (some "c1")) (.success [⟨11⟩] none) "id7").splits =
        [{ id := "id7", startDate := (⟨5⟩ : SourceRecord).updatedAt,
           endDate := (([(⟨9⟩ : SourceRecord)]).getLastD ⟨5⟩).updatedAt,
           contract := "" }] ∧
      (tailIteration (fun _ _ => true) ⟨false, "", none⟩ 100 50
          (.success [⟨5⟩, ⟨9⟩] (some "c1")) (.success [⟨11⟩] none) "id7").startDate =
        (([(⟨9⟩ : SourceRecord)]).getLastD ⟨5⟩).updatedAt) ∧
    ((fun (_ : List SourceRecord) (_ : Nat) => true)
        (((⟨5⟩ : SourceRecord) :: [⟨9⟩]) ++ [⟨11⟩]) 300000 = false →
      (tailIteration (fun _ _ => true) ⟨false, "", none⟩ 100 50
          (.success [⟨5⟩, ⟨9⟩] (some "c1")) (.success [⟨11⟩] none) "id7").splits = [] ∧
      (tailIteration (fun _ _ => true) ⟨false, "", none⟩ 100 50
          (.success [⟨5⟩, ⟨9⟩] (some "c1")) (.success [⟨11⟩] none) "id7").startDate = 50) := by
  refine ⟨by decide, ?_⟩
  exact tail_burst_delegation (fun _ _ => true) ⟨false, "", none⟩ 100 50
    ⟨5⟩ [⟨9⟩] "c1" (by decide) [⟨11⟩] none "id7"

/-- C6: a Block whose initial ascending probe succeeds with zero records is
released immediately: the Worker emits the release event for that Block
with `busy` reset to `false` and the cursor cleared, inserts nothing, and
reaches neither the graining loop nor the Processing phase. -/
theorem empty_probe_releases (st : WorkerState) (block : Block)
    (cont : Option String) :
    (processEntry st block (.success [] cont)).phase = .releasedNow ∧
    (processEntry st block (.success [] cont)).events = [.release block] ∧
    (processEntry st block (.success [] cont)).state.busy = false ∧
    (processEntry st block (.success [] cont)).state.continuation = "" ∧
    (processEntry st block (.success [] cont)).inserted = [] := by
  simp [processEntry, releaseWorker]

/-- Folding the `&`-join of `String.intercalate` over the key-value queries
is the verbatim parameter append. -/
theorem intercalate_go_appendVerbatim (params : List (String × String)) :
    ∀ acc : String,
      String.intercalate.go acc "&" (params.map (fun p => p.1 ++ "=" ++ p.2)) =
        appendVerbatim acc params := by
  induction params with
  | nil => intro acc; rfl
  | cons p ps ih =>
      intro acc
      simp only [List.map_cons, String.intercalate.go, appendVerbatim]
      rw [← ih]
      simp only [String.append_assoc]

/-- C7: query normalization refines the spec's description: for every record
root key and every caller parameter list, the produced query string is the
fixed pair `limit=1000&includeCriteriaMetadata=true`, followed by exactly one
sort-field parameter chosen by the root key (`orderBy=updated_at` for
`sales`, `sortBy=updatedAt` otherwise), followed by each caller parameter
verbatim as `key=value` joined with `&`. -/
theorem normalize_parameters_spec (root : String)
    (params : List (String × String)) :
    normalizeParameters root params = specQueryString root params := by
  simp only [normalizeParameters, specQueryString]
  simp only [List.cons_append, List.nil_append, String.intercalate, List.map,
    String.intercalate.go]
  rw [intercalate_go_appendVerbatim]
  congr 1

/-- C8: the bootstrap Block is well-defined exactly under the unstated
precondition that both probe pages are non-empty: on two successful but
empty probe pages the construction indexes position `length - 1` of an empty
record array (out of bounds), while any pair of successful non-empty pages
yields a Block. -/
theorem initial_block_needs_nonempty_pages :
    getInitialBlock "b0" "m" (.success [] none) (.success [] none) =
      .error .indexOutOfBounds ∧
    ∀ (fid mapping : String) (a d : List SourceRecord) (c1 c2 : Option String),
      a ≠ [] → d ≠ [] →
      ∃ b : Block,
        getInitialBlock fid mapping (.success a c1) (.success d c2) = .ok b := by
  refine ⟨rfl, fun fid mapping a d c1 c2 ha hd => ?_⟩
  exact ⟨_, initial_block_uses_last_records fid mapping a d c1 c2 ha hd⟩

/-- C9: release resets only the cursor and the busy flag: `_release` leaves
`data.block` unchanged, and a full entry→grain→release run ends with
`data.block` still holding the Block recorded at `process` entry (graining's
shrunken locals are never written back), `busy = false` and an empty
cursor — a released Worker retains a stale block record rather than none. -/
theorem release_keeps_stale_block (st : WorkerState) (block : Block)
    (dense : Nat → Nat → Bool) :
    (releaseWorker st block).1.dataBlock = st.dataBlock ∧
    (releaseWorker st block).1.busy = false ∧
    (releaseWorker st block).1.continuation = "" ∧
    (grainReleaseRun dense st block).1.dataBlock = some block ∧
    (grainReleaseRun dense st block).1.busy = false ∧
    (grainReleaseRun dense st block).1.continuation = "" := by
  simp [releaseWorker, grainReleaseRun]

/-- C10: every tail iteration preserves the Worker's `continuation` field:
the iteration's resulting state is exactly the entry state — even when the
ascending response carries a continuation cursor — while the ascending
request reads the (truthy) stored cursor; pagination advances only through
the local `startDate`. -/
theorem tail_preserves_cursor (hd : List SourceRecord → Nat → Bool)
    (st : WorkerState) (nowDate startDate : Nat)
    (ascRes descRes : Response) (fid : String) :
    (tailIteration hd st nowDate startDate ascRes descRes fid).state = st ∧
    (tailIteration hd st nowDate startDate ascRes descRes fid).state.continuation =
      st.continuation ∧
    (st.continuation ≠ "" →
      ("continuation", st.continuation) ∈
        (tailIteration hd st nowDate startDate ascRes descRes fid).ascRequest) := by
  have hstate : (tailIteration hd st nowDate startDate ascRes descRes fid).state = st := by
    rcases ascRes with _ | ⟨records, ascCont⟩
    · rfl
    · rcases records with _ | ⟨r, rs⟩
      · rfl
      · by_cases hct : contTruthy ascCont = true
        · rcases descRes with _ | ⟨descRecords, dc⟩
          · simp [tailIteration, hct]
          · by_cases hdens : hd (r :: (rs ++ descRecords)) 300000 = true <;>
              simp [tailIteration, hct, hdens]
        · simp [tailIteration, hct]
  have hreq : (tailIteration hd st nowDate startDate ascRes descRes fid).ascRequest =
      withContinuation st.continuation
        [("sortDirection", "asc"),
         ("startTimestamp", toString (parseTimestamp startDate)),
         ("endTimestamp", toString (parseTimestamp farFutureSentinel))] := by
    rcases ascRes with _ | ⟨records, ascCont⟩
    · rfl
    · rcases records with _ | ⟨r, rs⟩
      · rfl
      · by_cases hct : contTruthy ascCont = true
        · rcases descRes with _ | ⟨descRecords, dc⟩
          · simp [tailIteration, hct]
          · by_cases hdens : hd (r :: (rs ++ descRecords)) 300000 = true <;>
              simp [tailIteration, hct, hdens]
        · simp [tailIteration, hct]
  refine ⟨hstate, by rw [hstate], fun hne => ?_⟩
  rw [hreq]
  simp [withContinuation, hne]

/-- C10 witness: a concrete iteration with a stored cursor and a
continuation-bearing ascending response. -/
theorem tail_preserves_cursor_witness :
    (tailIteration (fun _ _ => true) ⟨true, "stored", none⟩ 100 50
        (.success [⟨5⟩, ⟨9⟩] (some "fresh")) (.success [⟨11⟩] none) "id9").state =
      (⟨true, "stored", none⟩ : WorkerState) ∧
    (tailIteration (fun _ _ => true) ⟨true, "stored", none⟩ 100 50
        (.success [⟨5⟩, ⟨9⟩] (some "fresh")) (.success [⟨11⟩] none) "id9").state.continuation =
      (⟨true, "stored", none⟩ : WorkerState).continuation ∧
    ((⟨true, "stored", none⟩ : WorkerState).continuation ≠ "" →
      ("continuation", (⟨true, "stored", none⟩ : WorkerState).continuation) ∈
        (tailIteration (fun _ _ => true) ⟨true, "stored", none⟩ 100 50
          (.success [⟨5⟩, ⟨9⟩] (some "fresh")) (.success [⟨11⟩] none) "id9").ascRequest) :=
  tail_preserves_cursor (fun _ _ => true) ⟨true, "stored", none⟩ 100 50
    (.success [⟨5⟩, ⟨9⟩] (some "fresh")) (.success [⟨11⟩] none) "id9"

end SyncNode
